import Mathlib

/-!
Verification of the Mun runtime core: type descriptors, reflection and
marshaling, native-call validation, and struct field access, embedded
shallowly from the Rust sources of the `mun_abi`, `mun_runtime`,
`mun_codegen` and `mun_memory` crates.

Machine integers are modelled as `Nat` with explicit reduction modulo
`2 ^ 32` where 32-bit overflow matters; byte buffers are `List Nat`
whose entries are below 256; fallible operations return a `Result`.
-/

namespace Mun

/-! ## MD5 (the external `md5` crate, RFC 1321)

Both the compiler backend (`TypeInfo::new` in `mun_codegen/src/ir/ty.rs`)
and the reflection layer (`Reflection::type_guid` in
`mun_abi/src/reflection.rs`, `ReturnTypeReflection::type_guid` in
`mun_runtime/src/reflection.rs`) compute a type Guid as
`md5::compute(name)`. The `md5` crate is an external dependency
implementing RFC 1321; it is embedded here directly from that standard
algorithm: messages are streams of bytes, digests are 16 bytes. -/

/-- 32-bit truncating addition. -/
def add32 (a b : Nat) : Nat := (a + b) % 4294967296

/-- 32-bit bitwise complement. -/
def not32 (a : Nat) : Nat := Nat.xor a 4294967295

/-- 32-bit left rotation by `n` (for `x < 2 ^ 32`, `0 < n < 32`). -/
def rotl32 (x n : Nat) : Nat :=
  Nat.lor ((x <<< n) % 4294967296) (x >>> (32 - n))

/-- The 64 MD5 sine-derived round constants. -/
def md5K : List Nat :=
  [0xd76aa478, 0xe8c7b756, 0x242070db, 0xc1bdceee,
   0xf57c0faf, 0x4787c62a, 0xa8304613, 0xfd469501,
   0x698098d8, 0x8b44f7af, 0xffff5bb1, 0x895cd7be,
   0x6b901122, 0xfd987193, 0xa679438e, 0x49b40821,
   0xf61e2562, 0xc040b340, 0x265e5a51, 0xe9b6c7aa,
   0xd62f105d, 0x02441453, 0xd8a1e681, 0xe7d3fbc8,
   0x21e1cde6, 0xc33707d6, 0xf4d50d87, 0x455a14ed,
   0xa9e3e905, 0xfcefa3f8, 0x676f02d9, 0x8d2a4c8a,
   0xfffa3942, 0x8771f681, 0x6d9d6122, 0xfde5380c,
   0xa4beea44, 0x4bdecfa9, 0xf6bb4b60, 0xbebfbc70,
   0x289b7ec6, 0xeaa127fa, 0xd4ef3085, 0x04881d05,
   0xd9d4d039, 0xe6db99e5, 0x1fa27cf8, 0xc4ac5665,
   0xf4292244, 0x432aff97, 0xab9423a7, 0xfc93a039,
   0x655b59c3, 0x8f0ccc92, 0xffeff47d, 0x85845dd1,
   0x6fa87e4f, 0xfe2ce6e0, 0xa3014314, 0x4e0811a1,
   0xf7537e82, 0xbd3af235, 0x2ad7d2bb, 0xeb86d391]

/-- The 64 MD5 per-round left-rotation amounts. -/
def md5S : List Nat :=
  [7, 12, 17, 22, 7, 12, 17, 22, 7, 12, 17, 22, 7, 12, 17, 22,
   5, 9, 14, 20, 5, 9, 14, 20, 5, 9, 14, 20, 5, 9, 14, 20,
   4, 11, 16, 23, 4, 11, 16, 23, 4, 11, 16, 23, 4, 11, 16, 23,
   6, 10, 15, 21, 6, 10, 15, 21, 6, 10, 15, 21, 6, 10, 15, 21]

/-- The MD5 nonlinear mixing function of round `i`. -/
def md5F (i b c d : Nat) : Nat :=
  if i < 16 then Nat.lor (Nat.land b c) (Nat.land (not32 b) d)
  else if i < 32 then Nat.lor (Nat.land d b) (Nat.land (not32 d) c)
  else if i < 48 then Nat.xor b (Nat.xor c d)
  else Nat.xor c (Nat.lor b (not32 d))

/-- The message-word index used by round `i`. -/
def md5G (i : Nat) : Nat :=
  if i < 16 then i
  else if i < 32 then (5 * i + 1) % 16
  else if i < 48 then (3 * i + 5) % 16
  else (7 * i) % 16

/-- Little-endian decoding of bytes into 32-bit words, four bytes a word. -/
def leWords : List Nat → List Nat
  | b0 :: b1 :: b2 :: b3 :: rest =>
      (b0 + 256 * b1 + 65536 * b2 + 16777216 * b3) :: leWords rest
  | _ => []

/-- Little-endian encoding of a 32-bit word as four bytes. -/
def wordLE (w : Nat) : List Nat :=
  [w % 256, (w >>> 8) % 256, (w >>> 16) % 256, (w >>> 24) % 256]

/-- One MD5 round applied to the state `(a, b, c, d)`. -/
def md5Round (m : List Nat) (st : Nat × Nat × Nat × Nat) (i : Nat) :
    Nat × Nat × Nat × Nat :=
  match st with
  | (a, b, c, d) =>
    let f := add32 (add32 (md5F i b c d) a) (add32 (md5K.getD i 0) (m.getD (md5G i) 0))
    (d, add32 b (rotl32 f (md5S.getD i 0)), b, c)

/-- Process one 64-byte block, updating the running MD5 state. -/
def md5Block (st : Nat × Nat × Nat × Nat) (block : List Nat) :
    Nat × Nat × Nat × Nat :=
  let m := leWords block
  match st, (List.range 64).foldl (md5Round m) st with
  | (a0, b0, c0, d0), (a, b, c, d) =>
    (add32 a0 a, add32 b0 b, add32 c0 c, add32 d0 d)

/-- Split a byte string into 64-byte blocks. -/
def toBlocks (l : List Nat) : List (List Nat) :=
  (List.range ((l.length + 63) / 64)).map (fun i => (l.drop (64 * i)).take 64)

/-- MD5 padding: `0x80`, zeros to 56 mod 64, then the bit length as
eight little-endian bytes. -/
def md5Pad (msg : List Nat) : List Nat :=
  let bitLen := 8 * msg.length
  let zeros := (120 - (msg.length + 1) % 64) % 64
  msg ++ [128] ++ List.replicate zeros 0 ++
    (List.range 8).map (fun i => (bitLen >>> (8 * i)) % 256)

/-- The MD5 digest (16 bytes) of a byte string. -/
def md5Bytes (msg : List Nat) : List Nat :=
  match (toBlocks (md5Pad msg)).foldl md5Block
      (0x67452301, 0xefcdab89, 0x98badcfe, 0x10325476) with
  | (a, b, c, d) => wordLE a ++ wordLE b ++ wordLE c ++ wordLE d

/-- The bytes of a string; every type name occurring in the program is
ASCII, for which this agrees with its UTF-8 encoding. -/
def strBytes (s : String) : List Nat := s.data.map Char.toNat

/-- `md5::compute` applied to the bytes of a string. -/
def md5Str (s : String) : List Nat := md5Bytes (strBytes s)

/-! ## The ABI type model (`mun_abi/src/type_info.rs`)

`TypeInfo` is the descriptor record `{ guid, name, size_in_bits,
alignment, group }`; when `group` is `StructTypes` a `StructInfo` record
trails it in memory and `as_struct` exposes it. A `Guid` is the 16-byte
`md5` digest of the type name. `StructInfo` itself
(`mun_abi/src/struct_info.rs`) is not among the sources; its shape is
modelled from the spec: an ordered list of field names, field type
references and field offsets, plus a storage kind. -/

/-- A 128-bit type identity, as 16 bytes (`abi::Guid`). -/
abbrev Guid := List Nat

/-- `abi::TypeGroup`: fundamental versus struct types. -/
inductive TypeGroup where
  | FundamentalTypes
  | StructTypes
deriving DecidableEq

/-- `TypeGroup::is_fundamental`. -/
def TypeGroup.is_fundamental : TypeGroup → Bool
  | .FundamentalTypes => true
  | .StructTypes => false

/-- `TypeGroup::is_struct`. -/
def TypeGroup.is_struct : TypeGroup → Bool
  | .StructTypes => true
  | .FundamentalTypes => false

/-- Modelled from the spec: `abi::StructMemoryKind` (its defining file is
not among the sources) — the storage kind of a struct, by-value or
garbage collected. -/
inductive StructMemoryKind where
  | Value
  | Gc
deriving DecidableEq

mutual
/-- `abi::TypeInfo`: guid, name, exact size in bits, alignment, group,
and — iff the group is `StructTypes` — the trailing `StructInfo`. -/
inductive TypeInfo : Type where
  | mk (guid : Guid) (name : String) (size_in_bits : Nat) (alignment : Nat)
       (group : TypeGroup) (trailing : Option StructInfo)

/-- Modelled from the spec: `abi::StructInfo` — the ordered field names,
field type references and field offsets of a struct, and its storage
kind. -/
inductive StructInfo : Type where
  | mk (field_names : List String) (field_types : List TypeInfo)
       (field_offsets : List Nat) (memory_kind : StructMemoryKind)
end

/-- The guid field of a descriptor. -/
def TypeInfo.guid : TypeInfo → Guid
  | .mk g _ _ _ _ _ => g

/-- `TypeInfo::name`. -/
def TypeInfo.name : TypeInfo → String
  | .mk _ n _ _ _ _ => n

/-- `TypeInfo::size_in_bits`. -/
def TypeInfo.size_in_bits : TypeInfo → Nat
  | .mk _ _ s _ _ _ => s

/-- `TypeInfo::alignment`. -/
def TypeInfo.alignment : TypeInfo → Nat
  | .mk _ _ _ a _ _ => a

/-- The group field of a descriptor. -/
def TypeInfo.group : TypeInfo → TypeGroup
  | .mk _ _ _ _ g _ => g

/-- The record trailing the descriptor header in memory. -/
def TypeInfo.trailing : TypeInfo → Option StructInfo
  | .mk _ _ _ _ _ t => t

/-- `TypeInfo::size_in_bytes`: `(size_in_bits + 7) / 8`. -/
def TypeInfo.size_in_bytes (t : TypeInfo) : Nat :=
  (t.size_in_bits + 7) / 8

/-- `TypeInfo::as_struct`: the trailing struct record iff the group is a
struct group. -/
def TypeInfo.as_struct (t : TypeInfo) : Option StructInfo :=
  if t.group.is_struct then t.trailing else none

/-- `PartialEq for TypeInfo`: equality is comparison of the guids alone. -/
def TypeInfo.beq (a b : TypeInfo) : Bool :=
  a.guid == b.guid

/-- `Hash for TypeInfo`: the data fed to the hasher is the guid alone. -/
def TypeInfo.hash_input (t : TypeInfo) : Guid :=
  t.guid

/-- `StructInfo::field_names`. -/
def StructInfo.field_names : StructInfo → List String
  | .mk ns _ _ _ => ns

/-- `StructInfo::field_types`. -/
def StructInfo.field_types : StructInfo → List TypeInfo
  | .mk _ ts _ _ => ts

/-- `StructInfo::field_offsets`. -/
def StructInfo.field_offsets : StructInfo → List Nat
  | .mk _ _ os _ => os

/-- The `memory_kind` field of a struct record. -/
def StructInfo.memory_kind : StructInfo → StructMemoryKind
  | .mk _ _ _ k => k

instance : Inhabited TypeInfo :=
  ⟨.mk [] ("") 0 0 .FundamentalTypes none⟩

/-! ## Results

Fallible Rust operations return `Result<T, E>`; embedded as an
inductive with decidable equality. -/

/-- Rust `Result<A, E>`. -/
inductive Result (ε α : Type) where
  | ok (val : α)
  | err (e : ε)
deriving DecidableEq

/-! ## Reflection (`mun_runtime/src/reflection.rs`, `mun_abi/src/reflection.rs`)

A value crossing the boundary reports a runtime guid and a type name
(`ArgumentReflection`); a statically expected return type reports a
static guid and name (`ReturnTypeReflection`). Both are embedded as
plain records of that data. -/

/-- The `ArgumentReflection` view of a value: its runtime guid and type
name (for primitives both come from `HasStaticTypeInfo::type_info`, for
a `StructRef` from the descriptor of the heap object). -/
structure ArgValue where
  type_guid : Guid
  type_name : String
deriving DecidableEq

/-- The `ReturnTypeReflection` view of a statically expected type: its
guid and name. -/
structure ReturnReflection where
  type_guid : Guid
  type_name : String
deriving DecidableEq

/-- The default `ReturnTypeReflection::type_guid`: the `md5` digest of
the type name (`mun_runtime/src/reflection.rs`). -/
def ReturnTypeReflection.default_type_guid (type_name : String) : Guid :=
  md5Str type_name

/-- The default `Reflection::type_guid` of `mun_abi/src/reflection.rs`:
also the `md5` digest of the type name. -/
def Reflection.type_guid (type_name : String) : Guid :=
  md5Str type_name

/-- `equals_argument_type`: ok iff the descriptor guid equals the
runtime guid of the argument, else the pair of names. -/
def equals_argument_type (type_info : TypeInfo) (arg : ArgValue) :
    Result (String × String) Unit :=
  if type_info.guid ≠ arg.type_guid then
    .err (type_info.name, arg.type_name)
  else
    .ok ()

/-- The `ReturnTypeReflection` impl for `StructRef`: its type name is
the literal string "struct" and its guid is the default, the `md5`
digest of that name. -/
def StructRef.type_name : String := "struct"

/-- The `ReturnTypeReflection` record of `StructRef`. -/
def StructRef.return_reflection : ReturnReflection :=
  ⟨ReturnTypeReflection.default_type_guid StructRef.type_name, StructRef.type_name⟩

/-- `equals_return_type::<T>`: for a fundamental descriptor, a direct
guid comparison against the static type; for a struct descriptor, a
comparison of the static type against `StructRef` — with the literal
name "struct" reported as the expected side on failure. -/
def equals_return_type (type_info : TypeInfo) (T : ReturnReflection) :
    Result (String × String) Unit :=
  match type_info.group with
  | .FundamentalTypes =>
    if type_info.guid ≠ T.type_guid then
      .err (type_info.name, T.type_name)
    else
      .ok ()
  | .StructTypes =>
    if StructRef.return_reflection.type_guid ≠ T.type_guid then
      .err ("struct", T.type_name)
    else
      .ok ()

/-- The name of the `HasStaticTypeInfo` descriptor of a host primitive
(`impl_primitive_type_info` in `mun_abi/src/type_info.rs`): `core::`
followed by the Rust type name. -/
def host_type_info_name (rust_name : String) : String :=
  "core::" ++ rust_name

/-- The `HasStaticTypeInfo` descriptor of a host primitive: its guid is
the `md5` digest of its `core::`-prefixed name, its group fundamental. -/
def host_type_info (rust_name : String) (size_in_bits alignment : Nat) : TypeInfo :=
  .mk (md5Str (host_type_info_name rust_name)) (host_type_info_name rust_name)
    size_in_bits alignment .FundamentalTypes none

/-- The `ArgumentReflection` view of a host primitive value
(`impl_primitive_type` in `mun_runtime/src/reflection.rs`): guid and
name of its `HasStaticTypeInfo` descriptor. -/
def host_arg (rust_name : String) : ArgValue :=
  ⟨md5Str (host_type_info_name rust_name), host_type_info_name rust_name⟩

/-- The `ReturnTypeReflection` view of a host primitive type. -/
def host_return (rust_name : String) : ReturnReflection :=
  ⟨md5Str (host_type_info_name rust_name), host_type_info_name rust_name⟩

/-- The `ReturnTypeReflection` impl for `()`: name `core::empty`, guid
the default `md5` digest of that name. -/
def unit_return_reflection : ReturnReflection :=
  ⟨ReturnTypeReflection.default_type_guid ("core::empty"), "core::empty"⟩

/-! ## The compiler backend (`mun_codegen/src/ir/ty.rs`)

`TypeInfo::new` assigns `guid = md5::compute(name)`; `type_info_query`
names the fundamental types `@core::float`, `@core::int` and
`@core::bool`. -/

/-- The codegen `TypeInfo` record (guid, name, group). -/
structure CodegenTypeInfo where
  guid : Guid
  name : String
  group : TypeGroup
deriving DecidableEq

/-- `TypeInfo::new` of the codegen crate: the guid is the `md5` digest
of the name. -/
def CodegenTypeInfo.new (name : String) (group : TypeGroup) : CodegenTypeInfo :=
  ⟨md5Str name, name, group⟩

/-- `type_info_query` on the `float` type constructor. -/
def type_info_query_float : CodegenTypeInfo :=
  CodegenTypeInfo.new ("@core::float") .FundamentalTypes

/-- `type_info_query` on the `int` type constructor. -/
def type_info_query_int : CodegenTypeInfo :=
  CodegenTypeInfo.new ("@core::int") .FundamentalTypes

/-- `type_info_query` on the `bool` type constructor. -/
def type_info_query_bool : CodegenTypeInfo :=
  CodegenTypeInfo.new ("@core::bool") .FundamentalTypes

/-- The ABI descriptor of a compiled fundamental type as the runtime
sees it: guid and name produced by `type_info_query`, size and
alignment from the 64-bit target. -/
def compiled_fundamental (cg : CodegenTypeInfo) (size_in_bits alignment : Nat) : TypeInfo :=
  .mk cg.guid cg.name size_in_bits alignment .FundamentalTypes none

/-! ## Native-call validation (`invoke_fn_impl` in `mun_runtime/src/macros.rs`)

Once the function has been looked up, `invoke_fn` validates the
signature: first the argument count against the signature length, then
each argument at increasing index via `equals_argument_type`, then the
return type via `equals_return_type` (or the `()` comparison when the
signature has no return type); only when every check passes is the
compiled function pointer transmuted and called. -/

/-- A compiled function signature: the ordered argument descriptors and
the optional return descriptor. -/
structure FunctionSignature where
  arg_types : List TypeInfo
  return_type : Option TypeInfo

/-- A looked-up compiled function (its entry point is relevant only
through whether it gets called). -/
structure FunctionInfo where
  signature : FunctionSignature

/-- The outcome of an invocation: either the compiled function pointer
was called, or validation failed and an error carrying the message is
returned without a call. -/
inductive InvokeResult where
  | called
  | invocation_error (msg : String)
deriving DecidableEq

/-- The per-argument validation loop: each argument is compared against
the descriptor at its index, and the first mismatch aborts with the
formatted message naming the index and the expected and found names. -/
def check_arguments (idx : Nat) :
    List TypeInfo → List ArgValue → Result String Unit
  | [], _ => .ok ()
  | _, [] => .ok ()
  | t :: ts, v :: vs =>
    match equals_argument_type t v with
    | .err (expected, found) =>
        .err ("Invalid argument type at index " ++ toString idx ++
          ". Expected: " ++ expected ++ ". Found: " ++ found ++ ".")
    | .ok () => check_arguments (idx + 1) ts vs

/-- The return-type validation step: `equals_return_type` against the
signature return descriptor when present, else the comparison against
the `()` reflection; a mismatch is formatted with the expected and
found names. -/
def check_return_step (sig : FunctionSignature) (output : ReturnReflection) :
    Result String Unit :=
  let r : Result (String × String) Unit :=
    match sig.return_type with
    | some rt => equals_return_type rt output
    | none =>
      if unit_return_reflection.type_guid ≠ output.type_guid then
        .err (unit_return_reflection.type_name, output.type_name)
      else
        .ok ()
  match r with
  | .err (expected, found) =>
      .err ("Invalid return type. Expected: " ++ expected ++
        ". Found: " ++ found)
  | .ok () => .ok ()

/-- Signature validation as performed by `invoke_fn`: the argument count
check precedes every per-argument check, which precede the return-type
check. -/
def validate_signature (sig : FunctionSignature) (args : List ArgValue)
    (output : ReturnReflection) : Result String Unit :=
  if sig.arg_types.length ≠ args.length then
    .err ("Invalid number of arguments. Expected: " ++
      toString sig.arg_types.length ++ ". Found: " ++
      toString args.length ++ ".")
  else
    match check_arguments 0 sig.arg_types args with
    | .err e => .err e
    | .ok () => check_return_step sig output

/-- `invoke_fn` after a successful function lookup: the compiled entry
point is called exactly when validation succeeds. -/
def invoke_fn (fi : FunctionInfo) (args : List ArgValue)
    (output : ReturnReflection) : InvokeResult :=
  match validate_signature fi.signature args output with
  | .ok () => .called
  | .err e => .invocation_error e

/-! ## The GC heap

`GcPtr` is an opaque handle resolved through the indirection table to a
typed byte region. The collector itself (`memory::gc`, re-exported by
`mun_runtime/src/garbage_collector.rs`) is not among the sources; its
allocation interface is modelled from the spec: `alloc` reserves a
zero-initialized region sized per the descriptor, tags it with the
descriptor, and returns a fresh handle. -/

/-- A stable opaque handle naming a heap object. -/
abbrev GcPtr := Nat

/-- The heap: each handle resolves to the tagging descriptor and the
byte contents of its region. -/
structure Heap where
  objs : List (TypeInfo × List Nat)

/-- Modelled from the spec: `alloc(type)` of the mark-sweep collector —
reserves a zero-initialized region of `size_in_bytes` bytes tagged with
the descriptor and returns a handle unused so far. -/
def Heap.alloc (h : Heap) (t : TypeInfo) : GcPtr × Heap :=
  (h.objs.length, ⟨h.objs ++ [(t, List.replicate t.size_in_bytes 0)]⟩)

/-- `ptr_type`: the descriptor tagging the object a handle names. -/
def Heap.type_of (h : Heap) (p : GcPtr) : TypeInfo :=
  (h.objs.getD p default).1

/-- The byte contents of the object a handle names (`GcPtr::deref`). -/
def Heap.bytes (h : Heap) (p : GcPtr) : List Nat :=
  (h.objs.getD p default).2

/-- Overwrite the leading bytes of a byte region with `new_` — the
effect of `ptr::copy_nonoverlapping` of `new_.length` bytes to its
start. -/
def writeAt (old new_ : List Nat) : List Nat :=
  new_ ++ old.drop new_.length

/-- Overwrite the leading bytes of the object named by `p`. -/
def Heap.write_bytes (h : Heap) (p : GcPtr) (bs : List Nat) : Heap :=
  match h.objs.get? p with
  | some obj => ⟨h.objs.set p (obj.1, writeAt obj.2 bs)⟩
  | none => h

/-! ## Struct marshaling (`Marshal<StructRef> for RawStruct`,
`mun_runtime/src/struct.rs`)

`marshal_from_ptr` crosses a struct value into native code: for a
`Value`-kind struct the pointer addresses raw struct bytes, which are
copied into a freshly allocated GC object of the same type; for a GC
struct the pointer addresses a `GcPtr`, which is reused as is. Since
the pointer is untyped, the embedding receives both decodings of the
pointed-to memory — the raw bytes and the handle those bytes would
denote — and the storage kind selects which one the code reads. -/

/-- `Marshal::marshal_from_ptr` for `RawStruct`: the resulting handle
and heap. `none` models the panic when the descriptor is not a struct
descriptor. -/
def marshal_from_ptr_struct (type_info : TypeInfo) (src_bytes : List Nat)
    (src_handle : GcPtr) (heap : Heap) : Option (GcPtr × Heap) :=
  match type_info.as_struct with
  | none => none
  | some struct_info =>
    if struct_info.memory_kind = .Value then
      match heap.alloc type_info with
      | (gc_handle, heap1) =>
        some (gc_handle,
          heap1.write_bytes gc_handle (src_bytes.take type_info.size_in_bytes))
    else
      some (src_handle, heap)

/-- What a destination pointer slot holds after `marshal_to_ptr`:
either raw struct bytes or a `GcPtr`. -/
inductive PtrSlot where
  | raw (bs : List Nat)
  | handle (p : GcPtr)
deriving DecidableEq

/-- `Marshal::marshal_to_ptr` for `RawStruct`: for a `Value`-kind struct
the `size_in_bytes` raw bytes of the value are copied into the
destination buffer; for a GC struct the handle itself is stored. -/
def marshal_to_ptr_struct (type_info : TypeInfo) (value : GcPtr)
    (heap : Heap) (dest_bytes : List Nat) : Option PtrSlot :=
  match type_info.as_struct with
  | none => none
  | some struct_info =>
    if struct_info.memory_kind = .Value then
      some (.raw (writeAt dest_bytes ((heap.bytes value).take type_info.size_in_bytes)))
    else
      some (.handle value)

/-! ## Struct field access (`StructRef::get`, `replace`, `set`,
`mun_runtime/src/struct.rs`)

Each operation resolves the field name to an index, checks the type of
the access against the declared field type, and only then touches the
bytes at the field offset. They are embedded over the struct
descriptor and its byte region; a primitive access of byte width `sz`
reads or writes `sz` raw bytes at the offset. -/

/-- Modelled from the spec: `abi::StructInfo::find_field_index` (its
defining file is not among the sources) — resolves a field name to its
index by a linear scan of the layout field names and fails with a
descriptive error naming the struct and the field when absent. -/
def find_field_index (type_name : String) (struct_info : StructInfo)
    (field_name : String) : Result String Nat :=
  match struct_info.field_names.findIdx? (fun n => n == field_name) with
  | some idx => .ok idx
  | none => .err ("Struct `" ++ type_name ++ "` does not contain field `" ++
      field_name ++ "`.")

/-- The type-mismatch message of the field accessors, naming the struct,
the field, and the expected and found type names. -/
def field_mismatch_msg (struct_name field_name expected found : String) : String :=
  "Mismatched types for `" ++ struct_name ++ "::" ++ field_name ++
    "`. Expected: `" ++ expected ++ "`. Found: `" ++ found ++ "`."

/-- `StructRef::get::<T>` on an object with descriptor `type_info` and
bytes `obj`: resolve the field, check `T` via `equals_return_type`
against the declared field type, then read the `sz` bytes of
`T::Marshalled` at the field offset. `.err` leaves the object
untouched: the code returns before any pointer is formed. -/
def struct_get (type_info : TypeInfo) (obj : List Nat) (T : ReturnReflection)
    (sz : Nat) (field_name : String) : Result String (List Nat) :=
  match type_info.as_struct with
  | none => .err ("not a struct")
  | some struct_info =>
    match find_field_index type_info.name struct_info field_name with
    | .err e => .err e
    | .ok field_idx =>
      let field_type := struct_info.field_types.getD field_idx default
      match equals_return_type field_type T with
      | .err (expected, found) =>
          .err (field_mismatch_msg type_info.name field_name expected found)
      | .ok () =>
        let offset := struct_info.field_offsets.getD field_idx 0
        .ok ((obj.drop offset).take sz)

/-- `StructRef::set::<T>`: resolve the field, check the supplied value
via `equals_argument_type` against the declared field type, then write
its marshaled bytes at the field offset, returning the updated object
bytes. -/
def struct_set (type_info : TypeInfo) (obj : List Nat) (value : ArgValue)
    (value_bytes : List Nat) (field_name : String) : Result String (List Nat) :=
  match type_info.as_struct with
  | none => .err ("not a struct")
  | some struct_info =>
    match find_field_index type_info.name struct_info field_name with
    | .err e => .err e
    | .ok field_idx =>
      let field_type := struct_info.field_types.getD field_idx default
      match equals_argument_type field_type value with
      | .err (expected, found) =>
          .err (field_mismatch_msg type_info.name field_name expected found)
      | .ok () =>
        let offset := struct_info.field_offsets.getD field_idx 0
        .ok (obj.take offset ++ value_bytes ++ obj.drop (offset + value_bytes.length))

/-- `StructRef::replace::<T>`: like `set`, but the bytes previously at
the field offset are read before the write and returned alongside the
updated object bytes. -/
def struct_replace (type_info : TypeInfo) (obj : List Nat) (value : ArgValue)
    (value_bytes : List Nat) (field_name : String) :
    Result String (List Nat × List Nat) :=
  match type_info.as_struct with
  | none => .err ("not a struct")
  | some struct_info =>
    match find_field_index type_info.name struct_info field_name with
    | .err e => .err e
    | .ok field_idx =>
      let field_type := struct_info.field_types.getD field_idx default
      match equals_argument_type field_type value with
      | .err (expected, found) =>
          .err (field_mismatch_msg type_info.name field_name expected found)
      | .ok () =>
        let offset := struct_info.field_offsets.getD field_idx 0
        .ok (((obj.drop offset).take value_bytes.length),
          obj.take offset ++ value_bytes ++ obj.drop (offset + value_bytes.length))

/-! ## The identity marshal of fundamentals (`mun_runtime/src/marshal.rs`)

For every `T`, `Marshal<T> for T` is the identity: `marshal_value`
returns the value, `marshal_from_ptr` is a raw read of the pointed-to
value, `marshal_to_ptr` a raw write. Memory holding values of a
fundamental type is embedded as a list of such values indexed by
location. `ArgumentReflection::marshal` of a primitive also returns the
value itself. -/

/-- `Marshal::marshal_value` of the identity instance. -/
def prim_marshal_value {α : Type} (v : α) : α := v

/-- `Marshal::marshal_from_ptr` of the identity instance: the raw read
at a location. -/
def prim_marshal_from_ptr {α : Type} (mem : List α) (i : Nat) : Option α :=
  mem.get? i

/-- `Marshal::marshal_to_ptr` of the identity instance: the raw write
at a location. -/
def prim_marshal_to_ptr {α : Type} (v : α) (mem : List α) (i : Nat) : List α :=
  mem.set i v

/-- `ArgumentReflection::marshal` of a primitive: the value itself. -/
def prim_marshal {α : Type} (v : α) : α := v

/-! ## Concrete descriptors

The compiled descriptors of the fundamental types on the 64-bit target
(mun `float` is `f64`, `int` is `i64`, `bool` is `i1`), and the
descriptors of the scenario structs. -/

/-- The compiled ABI descriptor of the mun `float` type. -/
def float_desc : TypeInfo := compiled_fundamental type_info_query_float 64 8

/-- The compiled ABI descriptor of the mun `int` type. -/
def int_desc : TypeInfo := compiled_fundamental type_info_query_int 64 8

/-- The compiled ABI descriptor of the mun `bool` type. -/
def bool_desc : TypeInfo := compiled_fundamental type_info_query_bool 1 1

/-- The layout of `struct Point { x: float, y: float }`, GC storage. -/
def point_struct_info : StructInfo :=
  .mk ["x", "y"] [float_desc, float_desc] [0, 8] .Gc

/-- The descriptor of `struct Point { x: float, y: float }`: two 8-byte
fields, 128 bits, alignment 8. -/
def point_desc : TypeInfo :=
  .mk (md5Str ("Point")) ("Point") 128 8 .StructTypes (some point_struct_info)

/-- A post-reload descriptor of the same name `Point` with a third
field `z`: same guid, different size and layout. -/
def point_v2_desc : TypeInfo :=
  .mk (md5Str ("Point")) ("Point") 192 8 .StructTypes
    (some (.mk ["x", "y", "z"] [float_desc, float_desc, float_desc] [0, 8, 16] .Gc))

/-- A value-storage variant of the `Point` layout. -/
def point_value_struct_info : StructInfo :=
  .mk ["x", "y"] [float_desc, float_desc] [0, 8] .Value

/-- The descriptor of a `struct(value)` with the `Point` fields. -/
def point_value_desc : TypeInfo :=
  .mk (md5Str ("PointValue")) ("PointValue") 128 8 .StructTypes
    (some point_value_struct_info)

/-- The descriptor of `struct Foo { p: Point }`: a struct whose single
field is itself of struct type. -/
def foo_desc : TypeInfo :=
  .mk (md5Str ("Foo")) ("Foo") 64 8 .StructTypes
    (some (.mk ["p"] [point_desc] [0] .Gc))

/-- A compiled function of signature `(int, float) -> bool`. -/
def int_float_fn : FunctionInfo :=
  ⟨⟨[int_desc, float_desc], some bool_desc⟩⟩

/-- An argument value carrying the mun-level `int` identity, as the
`abi::Reflection` impl for `i64` reports it: name `@core::int`, guid its
`md5` digest. -/
def mun_int_arg : ArgValue :=
  ⟨Reflection.type_guid ("@core::int"), "@core::int"⟩

/-- The expected-return reflection carrying the mun-level `bool`
identity, as the `abi::Reflection` impl for `bool` reports it. -/
def mun_bool_return : ReturnReflection :=
  ⟨Reflection.type_guid ("@core::bool"), "@core::bool"⟩

/-- An argument value carrying the mun-level `float` identity, as the
`abi::Reflection` impl for `f64` reports it: name `@core::float`, guid
its `md5` digest. -/
def mun_float_arg : ArgValue :=
  ⟨Reflection.type_guid ("@core::float"), "@core::float"⟩

/-! ## Shared lemmas on byte slices -/

set_option maxRecDepth 100000

/-- Reading `sz` bytes at `offset` picks out the object bytes there. -/
theorem slice_getD (obj : List Nat) (offset sz j : Nat) (hj : j < sz) :
    ((obj.drop offset).take sz).getD j 0 = obj.getD (offset + j) 0 := by
  simp [List.getD_eq_getElem?_getD, List.getElem?_take_of_lt hj, List.getElem?_drop]

/-- An in-bounds slice has the requested length. -/
theorem slice_length (obj : List Nat) (offset sz : Nat)
    (h : offset + sz ≤ obj.length) :
    ((obj.drop offset).take sz).length = sz := by
  simp only [List.length_take, List.length_drop]
  omega

/-- An in-bounds byte splice preserves the object length. -/
theorem splice_length (obj vb : List Nat) (offset : Nat)
    (h : offset + vb.length ≤ obj.length) :
    (obj.take offset ++ vb ++ obj.drop (offset + vb.length)).length = obj.length := by
  simp only [List.length_append, List.length_take, List.length_drop]
  omega

/-- Inside the spliced range, the new bytes are read back. -/
theorem splice_getD_inside (obj vb : List Nat) (offset j : Nat)
    (hj : j < vb.length) (h : offset + vb.length ≤ obj.length) :
    (obj.take offset ++ vb ++ obj.drop (offset + vb.length)).getD (offset + j) 0 =
      vb.getD j 0 := by
  have hto : (obj.take offset).length = offset := by
    simp only [List.length_take]; omega
  have h1 : (offset + j) < ((obj.take offset) ++ vb).length := by
    simp only [List.length_append, hto]; omega
  rw [List.getD_eq_getElem?_getD, List.getD_eq_getElem?_getD,
    List.getElem?_append_left h1,
    List.getElem?_append_right (by omega : (obj.take offset).length ≤ offset + j),
    hto]
  congr 2
  omega

/-- Outside the spliced range, the old bytes are unchanged. -/
theorem splice_getD_outside (obj vb : List Nat) (offset j : Nat)
    (hj : j < offset ∨ offset + vb.length ≤ j) (h : offset + vb.length ≤ obj.length)
    (_hjl : j < obj.length) :
    (obj.take offset ++ vb ++ obj.drop (offset + vb.length)).getD j 0 =
      obj.getD j 0 := by
  have hto : (obj.take offset).length = offset := by
    simp only [List.length_take]; omega
  rcases hj with hj | hj
  · have h1 : j < ((obj.take offset) ++ vb).length := by
      simp only [List.length_append, hto]; omega
    rw [List.getD_eq_getElem?_getD, List.getD_eq_getElem?_getD,
      List.getElem?_append_left h1, List.getElem?_append_left (by omega : j < (obj.take offset).length),
      List.getElem?_take_of_lt hj]
  · have h1 : ((obj.take offset) ++ vb).length ≤ j := by
      simp only [List.length_append, hto]; omega
    rw [List.getD_eq_getElem?_getD, List.getD_eq_getElem?_getD,
      List.getElem?_append_right h1, List.getElem?_drop]
    congr 2
    simp only [List.length_append, hto]
    omega

/-- Setting the last element of a concatenation replaces it. -/
theorem set_concat_length {α : Type} (l : List α) (x y : α) :
    (l ++ [x]).set l.length y = l ++ [y] := by
  induction l with
  | nil => rfl
  | cons a tl ih =>
    show a :: ((tl ++ [x]).set tl.length y) = a :: (tl ++ [y])
    rw [ih]

/-! ## Claims -/

/-- Claim C6: `equals_argument_type` returns Ok iff the descriptor
guid equals the runtime guid of the value, and otherwise returns an
error carrying exactly the pair of the expected and the found type
name; it never succeeds on differing guids (no coercion). -/
theorem check_argument_guid_iff :
    ∀ (type_info : TypeInfo) (arg : ArgValue),
      (equals_argument_type type_info arg = .ok () ↔
        type_info.guid = arg.type_guid) ∧
      (type_info.guid ≠ arg.type_guid →
        equals_argument_type type_info arg = .err (type_info.name, arg.type_name)) := by
  intro type_info arg
  unfold equals_argument_type
  by_cases h : type_info.guid = arg.type_guid
  · simp [h]
  · simp [h]

/-- Witness for C6: checking a host `i64` against the compiled `float`
descriptor fails with the pair of names. -/
theorem check_argument_guid_iff_witness :
    equals_argument_type float_desc (host_arg ("i64")) =
      .err ("@core::float", "core::i64") :=
  (check_argument_guid_iff float_desc (host_arg ("i64"))).2 (by decide)

/-- Claim C4: `equals_return_type::<T>` on a `Fundamental` descriptor
succeeds iff the descriptor guid equals the static guid of `T`, failing
with the pair (descriptor name, name of `T`); on a `Struct` descriptor
it succeeds iff the static guid of `T` equals the `StructRef` guid —
the `md5` digest of the name "struct" — regardless of which nominal
struct the descriptor names, failing with the pair ("struct", name of
`T`). -/
theorem check_return_fundamental_nominal_struct_structural :
    ∀ (type_info : TypeInfo) (T : ReturnReflection),
      StructRef.return_reflection.type_guid = md5Str ("struct") ∧
      (type_info.group = .FundamentalTypes →
        (equals_return_type type_info T = .ok () ↔ type_info.guid = T.type_guid) ∧
        (type_info.guid ≠ T.type_guid →
          equals_return_type type_info T = .err (type_info.name, T.type_name))) ∧
      (type_info.group = .StructTypes →
        (equals_return_type type_info T = .ok () ↔ T.type_guid = md5Str ("struct")) ∧
        (T.type_guid ≠ md5Str ("struct") →
          equals_return_type type_info T = .err ("struct", T.type_name))) := by
  intro type_info T
  refine ⟨rfl, ?_, ?_⟩
  · intro hg
    unfold equals_return_type
    rw [hg]
    by_cases h : type_info.guid = T.type_guid
    · simp [h]
    · simp [h]
  · intro hg
    unfold equals_return_type
    rw [hg]
    by_cases h : T.type_guid = md5Str ("struct")
    · simp [StructRef.return_reflection, ReturnTypeReflection.default_type_guid,
        StructRef.type_name, h]
    · simp [StructRef.return_reflection, ReturnTypeReflection.default_type_guid,
        StructRef.type_name, h]
      exact fun he => absurd he.symm h

/-- Witness for C4: the expected static type `StructRef` passes the
return check against the `Point` struct descriptor although the
descriptor names the nominal type `Point`, not `struct`. -/
theorem check_return_fundamental_nominal_struct_structural_witness :
    equals_return_type point_desc StructRef.return_reflection = .ok () :=
  ((check_return_fundamental_nominal_struct_structural point_desc
    StructRef.return_reflection).2.2 rfl).1.mpr rfl

/-- Claim C3: the guid of a type is a pure function of the bytes of its
name — the 128-bit `md5` digest — computed identically by the compiler
backend (`TypeInfo::new` behind `type_info_query`), the ABI reflection
layer (`Reflection::type_guid`) and the runtime reflection layer
(`ReturnTypeReflection::type_guid`); names with the same bytes always
receive the same guid. -/
theorem type_guid_pure_and_agrees :
    ∀ (n m : String) (g : TypeGroup),
      (CodegenTypeInfo.new n g).guid = md5Bytes (strBytes n) ∧
      Reflection.type_guid n = md5Bytes (strBytes n) ∧
      ReturnTypeReflection.default_type_guid n = md5Bytes (strBytes n) ∧
      (strBytes n = strBytes m →
        (CodegenTypeInfo.new n g).guid = ReturnTypeReflection.default_type_guid m) := by
  intro n m g
  refine ⟨rfl, rfl, rfl, ?_⟩
  intro h
  show md5Bytes (strBytes n) = md5Bytes (strBytes m)
  rw [h]

/-- Witness for C3: the codegen guid and the runtime reflection guid of
the name `@core::int` coincide. -/
theorem type_guid_pure_and_agrees_witness :
    (CodegenTypeInfo.new ("@core::int") .FundamentalTypes).guid =
      ReturnTypeReflection.default_type_guid ("@core::int") :=
  (type_guid_pure_and_agrees ("@core::int") ("@core::int") .FundamentalTypes).2.2.2 rfl

/-- Claim C7: descriptor equality and hashing are determined solely by
the guid: equality holds iff the guids are equal — whatever the names,
sizes, alignments, groups or layouts — the hasher input is the guid
alone, and descriptors with unequal guids compare unequal. -/
theorem typeinfo_eq_hash_guid_only :
    (∀ a b : TypeInfo, TypeInfo.beq a b = true ↔ a.guid = b.guid) ∧
    (∀ a b : TypeInfo, a.guid = b.guid →
      TypeInfo.beq a b = true ∧ TypeInfo.hash_input a = TypeInfo.hash_input b) ∧
    (∀ a b : TypeInfo, a.guid ≠ b.guid → TypeInfo.beq a b = false) ∧
    point_desc.size_in_bits ≠ point_v2_desc.size_in_bits ∧
    point_desc.trailing ≠ point_v2_desc.trailing := by
  refine ⟨?_, ?_, ?_, by decide, ?_⟩
  · intro a b
    simp [TypeInfo.beq]
  · intro a b h
    refine ⟨?_, ?_⟩
    · simp [TypeInfo.beq, h]
    · simp [TypeInfo.hash_input, h]
  · intro a b h
    simp [TypeInfo.beq, h]
  · intro h
    have h2 := congrArg (fun o => (Option.getD o point_struct_info).field_names) h
    simp [point_desc, point_v2_desc, point_struct_info, TypeInfo.trailing,
      StructInfo.field_names] at h2

/-- Witness for C7: the pre-reload and post-reload `Point` descriptors
differ in size and layout yet compare equal and hash identically. -/
theorem typeinfo_eq_hash_guid_only_witness :
    TypeInfo.beq point_desc point_v2_desc = true ∧
    TypeInfo.hash_input point_desc = TypeInfo.hash_input point_v2_desc :=
  typeinfo_eq_hash_guid_only.2.1 point_desc point_v2_desc rfl

/-- Claim C8: `size_in_bytes` is `size_in_bits` rounded up to the next
whole byte — it is the least count of bytes holding the bits — and the
`Point` descriptor with two 8-byte fields reports 16 bytes with
alignment 8. -/
theorem size_in_bytes_rounds_up :
    (∀ t : TypeInfo, t.size_in_bits ≤ 8 * t.size_in_bytes ∧
      8 * t.size_in_bytes < t.size_in_bits + 8) ∧
    point_desc.size_in_bytes = 16 ∧ point_desc.alignment = 8 := by
  refine ⟨?_, rfl, rfl⟩
  intro t
  unfold TypeInfo.size_in_bytes
  omega

/-- Claim C10: when the supplied argument count differs from the length
of the signature argument list, the invocation fails with the message
naming the expected and the found counts, the compiled function pointer
is never called, and no per-argument type check is performed — the
outcome is the same whatever the argument values and the expected
output type. -/
theorem invoke_arity_mismatch :
    ∀ (fi : FunctionInfo) (args : List ArgValue) (output : ReturnReflection),
      fi.signature.arg_types.length ≠ args.length →
      invoke_fn fi args output = .invocation_error
        ("Invalid number of arguments. Expected: " ++
          toString fi.signature.arg_types.length ++ ". Found: " ++
          toString args.length ++ ".") ∧
      invoke_fn fi args output ≠ .called ∧
      (∀ (args2 : List ArgValue) (output2 : ReturnReflection),
        args2.length = args.length →
        invoke_fn fi args2 output2 = invoke_fn fi args output) := by
  intro fi args output h
  have h1 : invoke_fn fi args output = .invocation_error
      ("Invalid number of arguments. Expected: " ++
        toString fi.signature.arg_types.length ++ ". Found: " ++
        toString args.length ++ ".") := by
    unfold invoke_fn validate_signature
    simp [h]
  refine ⟨h1, by rw [h1]; simp, ?_⟩
  intro args2 output2 hlen
  have h2 : fi.signature.arg_types.length ≠ args2.length := by
    rw [hlen]; exact h
  rw [h1]
  unfold invoke_fn validate_signature
  simp [hlen, h, h2]

/-- Witness for C10: a one-argument function invoked with no arguments
fails with the counts 1 and 0. -/
theorem invoke_arity_mismatch_witness :
    invoke_fn int_float_fn [] (host_return ("bool")) = .invocation_error
      ("Invalid number of arguments. Expected: 2. Found: 0.") :=
  (invoke_arity_mismatch int_float_fn [] (host_return ("bool")) (by decide)).1

/-- Claim C9: the marshaling of a fundamental value is the identity in
both directions — `ArgumentReflection::marshal` followed by
`Marshal::marshal_value` returns the value itself, and a value written
to a memory location by `marshal_to_ptr` is read back unchanged by
`marshal_from_ptr`. -/
theorem fundamental_marshal_roundtrip :
    ∀ {α : Type} (v : α) (mem : List α) (i : Nat),
      i < mem.length →
      prim_marshal_value (prim_marshal v) = v ∧
      prim_marshal_from_ptr (prim_marshal_to_ptr (prim_marshal v) mem i) i =
        some v := by
  intro α v mem i h
  refine ⟨rfl, ?_⟩
  show (mem.set i v).get? i = some v
  induction mem generalizing i with
  | nil => cases h
  | cons x xs ih =>
    cases i with
    | zero => rfl
    | succ n => exact ih n (Nat.lt_of_succ_lt_succ h)

/-- Witness for C9: the value 42 written to location 1 of a three-cell
memory is read back as 42. -/
theorem fundamental_marshal_roundtrip_witness :
    prim_marshal_from_ptr (prim_marshal_to_ptr (prim_marshal 42) [0, 0, 0] 1) 1 =
      some 42 :=
  (fundamental_marshal_roundtrip 42 [0, 0, 0] 1 (by decide)).2

/-- Claim C2, counterexample: invoking the compiled `(int, float) -> bool`
function with two host `i64` arguments does not fail with expected name
"core::float" and found name "core::int" at index 1 — the compiled
descriptor names carry an `@` prefix (`@core::int`, `@core::float`) and
the host primitive reflection names are `core::i64`-style, so the
reported failure is at index 0 with the pair ("@core::int", "core::i64"). -/
theorem invoke_scenario_counterexample :
    invoke_fn int_float_fn [host_arg ("i64"), host_arg ("i64")] (host_return ("bool")) =
      .invocation_error
        ("Invalid argument type at index 0. Expected: @core::int. Found: core::i64.") ∧
    invoke_fn int_float_fn [host_arg ("i64"), host_arg ("i64")] (host_return ("bool")) ≠
      .invocation_error
        ("Invalid argument type at index 1. Expected: core::float. Found: core::int.") ∧
    type_info_query_float.name ≠ "core::float" ∧
    type_info_query_int.name ≠ "core::int" := by
  refine ⟨by decide, by decide, by decide, by decide⟩

/-- Claim C2, amended: invoking the compiled `(int, float) -> bool`
function with two arguments carrying the mun `int` identity (guid and
name `@core::int`, as the `abi::Reflection` impl for `i64` reports)
fails with a type mismatch whose expected type name is `@core::float`
and whose found type name is `@core::int`, reported at argument index 1
(indices counted from 0); with two host `i64` arguments (reflected as
`core::i64`) it fails already at index 0 with expected `@core::int` and
found `core::i64`. -/
theorem invoke_scenario_amended :
    invoke_fn int_float_fn [mun_int_arg, mun_int_arg] mun_bool_return =
      .invocation_error
        ("Invalid argument type at index 1. Expected: @core::float. Found: @core::int.") ∧
    invoke_fn int_float_fn [host_arg ("i64"), host_arg ("i64")] (host_return ("i64")) =
      .invocation_error
        ("Invalid argument type at index 0. Expected: @core::int. Found: core::i64.") := by
  refine ⟨by decide, by decide⟩

/-- Claim C1: a struct crossing the native-call boundary is marshaled
according to the storage kind of its layout. Crossing in
(`marshal_from_ptr`) with a `Value`-kind layout copies the
`size_in_bytes` raw bytes into a freshly GC-allocated object of the
same type — the returned handle differs from every pre-existing handle
and no pre-existing object is modified, so the native side never
aliases the original value; with GC storage the existing handle is
reused and the heap is untouched. Crossing out (`marshal_to_ptr`) with
a `Value`-kind layout copies the `size_in_bytes` raw bytes of the
object into the destination buffer; with GC storage the handle itself
is stored, no bytes copied. -/
theorem struct_marshal_storage_kind :
    ∀ (ti : TypeInfo) (si : StructInfo) (src_bytes : List Nat) (src_handle : GcPtr)
      (heap : Heap) (v : GcPtr) (dest : List Nat),
      ti.as_struct = some si →
      (si.memory_kind = .Value → src_bytes.length = ti.size_in_bytes →
        ∃ g heap2, marshal_from_ptr_struct ti src_bytes src_handle heap =
            some (g, heap2) ∧
          (∀ q, q < heap.objs.length → g ≠ q) ∧
          heap2.objs.length = heap.objs.length + 1 ∧
          (∀ q, q < heap.objs.length → heap2.objs.get? q = heap.objs.get? q) ∧
          heap2.type_of g = ti ∧
          heap2.bytes g = src_bytes) ∧
      (si.memory_kind = .Gc →
        marshal_from_ptr_struct ti src_bytes src_handle heap =
          some (src_handle, heap)) ∧
      (si.memory_kind = .Value → (heap.bytes v).length = ti.size_in_bytes →
        marshal_to_ptr_struct ti v heap dest =
          some (.raw (heap.bytes v ++ dest.drop ti.size_in_bytes))) ∧
      (si.memory_kind = .Gc →
        marshal_to_ptr_struct ti v heap dest = some (.handle v)) := by
  intro ti si src_bytes src_handle heap v dest hs
  refine ⟨?_, ?_, ?_, ?_⟩
  · intro hk hlen
    refine ⟨heap.objs.length, ⟨heap.objs ++ [(ti, src_bytes)]⟩, ?_, ?_, ?_, ?_, ?_, ?_⟩
    · unfold marshal_from_ptr_struct Heap.alloc Heap.write_bytes
      rw [hs]
      simp only [hk, if_true, reduceIte]
      rw [List.get?_eq_getElem?, List.getElem?_concat_length]
      simp only []
      rw [set_concat_length]
      have htake : src_bytes.take ti.size_in_bytes = src_bytes := by
        rw [← hlen, List.take_length]
      rw [htake]
      unfold writeAt
      rw [List.drop_of_length_le (by rw [List.length_replicate, hlen])]
      rw [List.append_nil]
    · intro q hq
      exact Nat.ne_of_gt hq
    · simp
    · intro q hq
      simp [List.get?_eq_getElem?, List.getElem?_append_left hq]
    · simp [Heap.type_of, List.getD_eq_getElem?_getD, List.getElem?_concat_length]
    · simp [Heap.bytes, List.getD_eq_getElem?_getD, List.getElem?_concat_length]
  · intro hk
    unfold marshal_from_ptr_struct
    rw [hs]
    simp [hk]
  · intro hk hlen
    unfold marshal_to_ptr_struct
    rw [hs]
    simp only [hk, if_true, reduceIte]
    unfold writeAt
    rw [← hlen, List.take_length]
  · intro hk
    unfold marshal_to_ptr_struct
    rw [hs]
    simp [hk]

/-- Witness for C1: marshaling the GC-kind `Point` handle 7 in either
direction reuses the handle without touching bytes, and marshaling a
16-byte value struct out copies its bytes over the head of the
destination buffer. -/
theorem struct_marshal_storage_kind_witness :
    marshal_from_ptr_struct point_desc (List.replicate 16 0) 7 ⟨[]⟩ =
      some (7, ⟨[]⟩) ∧
    marshal_to_ptr_struct point_desc 7 ⟨[]⟩ [1, 2, 3] = some (.handle 7) ∧
    marshal_to_ptr_struct point_value_desc 0
        ⟨[(point_value_desc, List.range 16)]⟩ (List.replicate 20 9) =
      some (.raw ((Heap.bytes ⟨[(point_value_desc, List.range 16)]⟩ 0) ++
        (List.replicate 20 9).drop point_value_desc.size_in_bytes)) := by
  have h1 := struct_marshal_storage_kind point_desc point_struct_info
    (List.replicate 16 0) 7 ⟨[]⟩ 7 [1, 2, 3] rfl
  have h2 := struct_marshal_storage_kind point_value_desc point_value_struct_info
    [] 0 ⟨[(point_value_desc, List.range 16)]⟩ 0 (List.replicate 20 9) rfl
  exact ⟨h1.2.1 rfl, h1.2.2.2 rfl, h2.2.2.1 rfl (by decide)⟩

/-- Claim C5, counterexample: `StructRef::get` does not compare the
expected type against the declared TypeId of the field when the field
type is a struct. Reading the struct-typed field `p` of `Foo` with
expected static type `StructRef` succeeds although the guid of the
declared field type `Point` differs from the `StructRef` guid (the
`md5` digest of "struct"). -/
theorem field_access_struct_field_counterexample :
    point_desc.guid ≠ StructRef.return_reflection.type_guid ∧
    struct_get foo_desc (List.replicate 8 0) StructRef.return_reflection 8 ("p") =
      .ok (List.replicate 8 0) := by
  exact ⟨by decide, by decide⟩

/-- Claim C5, amended: for `StructRef::get`, `set` and `replace` — if
the field name is absent from the layout (resolved by linear scan of
the field names) the operation fails with a descriptive error naming
the struct and the field and the bytes are untouched; if the type check
fails — for `set` and `replace` the supplied value guid against the
declared field type guid, for `get` the expected static guid against
the declared field type guid when the field type is fundamental and
against the `StructRef` guid (the digest of "struct") when the field
type is a struct — the operation fails with a descriptive error naming
the struct, the field, and the expected and found type names, and the
bytes are untouched; otherwise the operation reads or writes the bytes
at the field offset, leaving all other bytes unchanged, and `replace`
additionally returns the bytes previously stored at the field while
storing the new ones. -/
theorem field_access_checked_ops :
    ∀ (ti : TypeInfo) (si : StructInfo) (obj : List Nat) (fname : String)
      (T : ReturnReflection) (sz : Nat) (v : ArgValue) (vb : List Nat),
      ti.as_struct = some si →
      (si.field_names.findIdx? (fun n => n == fname) = none →
        struct_get ti obj T sz fname = .err
          ("Struct `" ++ ti.name ++ "` does not contain field `" ++ fname ++ "`.") ∧
        struct_set ti obj v vb fname = .err
          ("Struct `" ++ ti.name ++ "` does not contain field `" ++ fname ++ "`.") ∧
        struct_replace ti obj v vb fname = .err
          ("Struct `" ++ ti.name ++ "` does not contain field `" ++ fname ++ "`.")) ∧
      (∀ idx, si.field_names.findIdx? (fun n => n == fname) = some idx →
        ((si.field_types.getD idx default).group = .FundamentalTypes →
          (equals_return_type (si.field_types.getD idx default) T = .ok () ↔
            (si.field_types.getD idx default).guid = T.type_guid)) ∧
        ((si.field_types.getD idx default).group = .StructTypes →
          (equals_return_type (si.field_types.getD idx default) T = .ok () ↔
            T.type_guid = md5Str ("struct"))) ∧
        (equals_argument_type (si.field_types.getD idx default) v = .ok () ↔
          (si.field_types.getD idx default).guid = v.type_guid) ∧
        (∀ e f, equals_return_type (si.field_types.getD idx default) T = .err (e, f) →
          struct_get ti obj T sz fname =
            .err (field_mismatch_msg ti.name fname e f)) ∧
        (∀ e f, equals_argument_type (si.field_types.getD idx default) v = .err (e, f) →
          struct_set ti obj v vb fname =
            .err (field_mismatch_msg ti.name fname e f) ∧
          struct_replace ti obj v vb fname =
            .err (field_mismatch_msg ti.name fname e f)) ∧
        (equals_return_type (si.field_types.getD idx default) T = .ok () →
          si.field_offsets.getD idx 0 + sz ≤ obj.length →
          ∃ r, struct_get ti obj T sz fname = .ok r ∧ r.length = sz ∧
            (∀ j, j < sz →
              r.getD j 0 = obj.getD (si.field_offsets.getD idx 0 + j) 0)) ∧
        (equals_argument_type (si.field_types.getD idx default) v = .ok () →
          si.field_offsets.getD idx 0 + vb.length ≤ obj.length →
          ∃ obj2 old, struct_set ti obj v vb fname = .ok obj2 ∧
            struct_replace ti obj v vb fname = .ok (old, obj2) ∧
            obj2.length = obj.length ∧
            (∀ j, j < vb.length →
              obj2.getD (si.field_offsets.getD idx 0 + j) 0 = vb.getD j 0) ∧
            (∀ j, j < obj.length →
              (j < si.field_offsets.getD idx 0 ∨
                si.field_offsets.getD idx 0 + vb.length ≤ j) →
              obj2.getD j 0 = obj.getD j 0) ∧
            old.length = vb.length ∧
            (∀ j, j < vb.length →
              old.getD j 0 = obj.getD (si.field_offsets.getD idx 0 + j) 0))) := by
  intro ti si obj fname T sz v vb hs
  constructor
  · intro hnone
    have hf : find_field_index ti.name si fname = .err
        ("Struct `" ++ ti.name ++ "` does not contain field `" ++ fname ++ "`.") := by
      unfold find_field_index
      rw [hnone]
    refine ⟨?_, ?_, ?_⟩
    · unfold struct_get
      rw [hs]
      dsimp only
      rw [hf]
    · unfold struct_set
      rw [hs]
      dsimp only
      rw [hf]
    · unfold struct_replace
      rw [hs]
      dsimp only
      rw [hf]
  · intro idx hidx
    have hf : find_field_index ti.name si fname = .ok idx := by
      unfold find_field_index
      rw [hidx]
    refine ⟨?_, ?_, ?_, ?_, ?_, ?_, ?_⟩
    · intro hg
      unfold equals_return_type
      rw [hg]
      by_cases h : (si.field_types.getD idx default).guid = T.type_guid
      · simp [h]
      · simp [h]
    · intro hg
      unfold equals_return_type
      rw [hg]
      by_cases h : T.type_guid = md5Str ("struct")
      · simp [StructRef.return_reflection, ReturnTypeReflection.default_type_guid,
          StructRef.type_name, h]
      · simp [StructRef.return_reflection, ReturnTypeReflection.default_type_guid,
          StructRef.type_name, h]
        exact fun he => absurd he.symm h
    · unfold equals_argument_type
      by_cases h : (si.field_types.getD idx default).guid = v.type_guid
      · simp [h]
      · simp [h]
    · intro e f herr
      unfold struct_get
      rw [hs]
      dsimp only
      rw [hf]
      dsimp only
      rw [herr]
    · intro e f herr
      constructor
      · unfold struct_set
        rw [hs]
        dsimp only
        rw [hf]
        dsimp only
        rw [herr]
      · unfold struct_replace
        rw [hs]
        dsimp only
        rw [hf]
        dsimp only
        rw [herr]
    · intro hok hb
      refine ⟨(obj.drop (si.field_offsets.getD idx 0)).take sz, ?_, ?_, ?_⟩
      · unfold struct_get
        rw [hs]
        dsimp only
        rw [hf]
        dsimp only
        rw [hok]
      · exact slice_length obj _ sz hb
      · intro j hj
        exact slice_getD obj _ sz j hj
    · intro hok hb
      refine ⟨obj.take (si.field_offsets.getD idx 0) ++ vb ++
          obj.drop (si.field_offsets.getD idx 0 + vb.length),
        (obj.drop (si.field_offsets.getD idx 0)).take vb.length,
        ?_, ?_, ?_, ?_, ?_, ?_, ?_⟩
      · unfold struct_set
        rw [hs]
        dsimp only
        rw [hf]
        dsimp only
        rw [hok]
      · unfold struct_replace
        rw [hs]
        dsimp only
        rw [hf]
        dsimp only
        rw [hok]
      · exact splice_length obj vb _ hb
      · intro j hj
        exact splice_getD_inside obj vb _ j hj hb
      · intro j hjl hside
        exact splice_getD_outside obj vb _ j hside hb hjl
      · exact slice_length obj _ vb.length hb
      · intro j hj
        exact slice_getD obj _ vb.length j hj

/-- Witness for C5, amended: on a 16-byte `Point` object with bytes
0..15, reading the field `y` as a host `f64` fails with the mismatch
message (the declared field type is `@core::float`), reading a missing
field `z` fails naming the struct and the field, and replacing the
bytes of `y` returns the old bytes 8..15 while storing the new ones. -/
theorem field_access_checked_ops_witness :
    struct_get point_desc (List.range 16) (host_return ("f64")) 8 ("z") =
      .err ("Struct `Point` does not contain field `z`.") ∧
    struct_get point_desc (List.range 16) (host_return ("f64")) 8 ("y") =
      .err (field_mismatch_msg ("Point") ("y") ("@core::float") ("core::f64")) ∧
    (∃ obj2 old,
      struct_set point_desc (List.range 16) (mun_float_arg) (List.replicate 8 255) ("y") =
        .ok obj2 ∧
      struct_replace point_desc (List.range 16) (mun_float_arg) (List.replicate 8 255) ("y") =
        .ok (old, obj2) ∧
      obj2.length = (List.range 16).length ∧
      (∀ j, j < (List.replicate 8 255).length →
        obj2.getD (8 + j) 0 = (List.replicate 8 255).getD j 0) ∧
      (∀ j, j < (List.range 16).length → (j < 8 ∨ 8 + (List.replicate 8 255).length ≤ j) →
        obj2.getD j 0 = (List.range 16).getD j 0) ∧
      old.length = (List.replicate 8 255).length ∧
      (∀ j, j < (List.replicate 8 255).length →
        old.getD j 0 = (List.range 16).getD (8 + j) 0)) := by
  have h := field_access_checked_ops point_desc point_struct_info (List.range 16)
    ("z") (host_return ("f64")) 8 (mun_float_arg) (List.replicate 8 255) rfl
  have h2 := field_access_checked_ops point_desc point_struct_info (List.range 16)
    ("y") (host_return ("f64")) 8 (mun_float_arg) (List.replicate 8 255) rfl
  refine ⟨(h.1 (by decide)).1, ?_, ?_⟩
  · exact (h2.2 1 (by decide)).2.2.2.1 ("@core::float") ("core::f64") (by decide)
  · exact (h2.2 1 (by decide)).2.2.2.2.2.2
      (by decide) (by decide)

end Mun
